import Mathlib

/-!
Shallow embedding of the audio-input subsystem in
`src/hello-tauri/tauri-template/src-tauri/src/lib.rs`.

Numeric modelling: the Rust code computes with `f32`.  We model sample
values with `ℚ` (every `f32` value is a rational number) and model the
square root in `calculate_rms` with `Real.sqrt`, i.e. we verify the exact
real-number semantics of the arithmetic the code writes down, ignoring
floating-point rounding.
-/

namespace Toolbox

/-! ### Sample normalization (shared by capture callbacks and the decoder)

The Rust sources write the per-format scale factors as `i16::MAX as f32`,
`u16::MAX as f32`, `8388608.0 /* 2^23 */` and `i32::MAX as f32`.  The
integer bound constants are defined the way the machine defines them. -/

/-- `i16::MAX` (the divisor in `sample as f32 / i16::MAX as f32`). -/
def i16_MAX : ℤ := 2 ^ 15 - 1

/-- `u16::MAX` (the divisor in `s as f32 / u16::MAX as f32`). -/
def u16_MAX : ℕ := 2 ^ 16 - 1

/-- `i32::MAX` (the divisor in `sample as f32 / i32::MAX as f32`). -/
def i32_MAX : ℤ := 2 ^ 31 - 1

/-- Signed 16-bit normalization: `sample as f32 / i16::MAX as f32`
(used by the I16 capture callback and the 16-bit decode arm). -/
def normalize_i16 (sample : ℤ) : ℚ := (sample : ℚ) / (i16_MAX : ℚ)

/-- Unsigned 16-bit normalization: `(s as f32 / u16::MAX as f32) * 2.0 - 1.0`
(used by the U16 capture callback). -/
def normalize_u16 (sample : ℕ) : ℚ := (sample : ℚ) / (u16_MAX : ℚ) * 2 - 1

/-- Signed 24-bit normalization: `sample as f32 / 8388608.0` (`// 2^23`),
the 24-bit decode arm. -/
def normalize_i24 (sample : ℤ) : ℚ := (sample : ℚ) / 8388608

/-- Signed 32-bit normalization: `sample as f32 / i32::MAX as f32`,
the 32-bit decode arm. -/
def normalize_i32 (sample : ℤ) : ℚ := (sample : ℚ) / (i32_MAX : ℚ)

/-! ### Loudness meter -/

/-- `let sum_of_squares: f32 = samples.iter().map(|&s| s * s).sum();` -/
def sum_of_squares (samples : List ℚ) : ℚ := (samples.map fun s => s * s).sum

/-- `calculate_rms`: `0.0` on an empty slice, otherwise
`(sum_of_squares / samples.len() as f32).sqrt()`. -/
noncomputable def calculate_rms (samples : List ℚ) : ℝ :=
  if samples.isEmpty then 0
  else Real.sqrt ((sum_of_squares samples : ℝ) / (samples.length : ℝ))

/-! ### Stereo downmix (the `samples.chunks(2)` loop in `read_wav_file`)

`samples.chunks(2).map(|chunk| (chunk[0] + chunk.get(1).unwrap_or(&0.0)) / 2.0)`:
a final odd chunk has no second element, and `unwrap_or(&0.0)` supplies `0.0`. -/

def downmixStereo : List ℚ → List ℚ
  | left :: right :: rest => (left + right) / 2 :: downmixStereo rest
  | [single] => [(single + 0) / 2]
  | [] => []

/-! ### WAV decoding (`read_wav_file`) -/

/-- `hound::SampleFormat`. -/
inductive HoundSampleFormat
  | Float
  | Int
deriving DecidableEq

/-- The fields of `hound::WavSpec` that `read_wav_file` consults. -/
structure WavSpec where
  channels : Nat
  sample_format : HoundSampleFormat
  bits_per_sample : Nat
  sample_rate : Nat
deriving DecidableEq

/-- The sample payload of the opened file, already carrying the value type
the `reader.samples::<T>()` iterator would yield for the declared format
(float files yield `f32`, integer files yield `i16`/`i32` values). -/
inductive RawSamples
  | float (data : List ℚ)
  | int (data : List ℤ)
deriving DecidableEq

/-- The `match spec.sample_format { ... }` block of `read_wav_file` that
produces the normalized `Vec<f32>`.  The final mismatch arm is a modelling
artifact: in the Rust code the sample value type is chosen from
`spec.sample_format` itself, so a well-formed input never reaches it. -/
def decodeSamples (spec : WavSpec) (raw : RawSamples) : Except String (List ℚ) :=
  match spec.sample_format, raw with
  | .Float, .float data => .ok data
  | .Int, .int data =>
    match spec.bits_per_sample with
    | 16 => .ok (data.map normalize_i16)
    | 24 => .ok (data.map normalize_i24)
    | 32 => .ok (data.map normalize_i32)
    | _ => .error "Unsupported bit depth"
  | _, _ => .error "sample data does not match the declared sample format"

/-- `WavData { samples, sample_rate, duration_ms }`. -/
structure WavData where
  samples : List ℚ
  sample_rate : Nat
  duration_ms : ℚ
deriving DecidableEq

/-- `read_wav_file` after the file has been opened and its spec read:
decode all samples by declared format, downmix when `spec.channels == 2`
(any other channel count passes through), compute `duration_ms`. -/
def read_wav_file (spec : WavSpec) (raw : RawSamples) : Except String WavData :=
  match decodeSamples spec raw with
  | .error e => .error e
  | .ok samples =>
    let mono_samples := if spec.channels = 2 then downmixStereo samples else samples
    let duration_ms : ℚ := (mono_samples.length : ℚ) / (spec.sample_rate : ℚ) * 1000
    .ok { samples := mono_samples, sample_rate := spec.sample_rate,
          duration_ms := duration_ms }

/-! ### Device enumeration and id parsing -/

/-- `cpal::SampleFormat` (the variants the `match config.sample_format()`
in `start_monitoring` can see; only `F32`, `I16`, `U16` are handled). -/
inductive SampleFormat
  | I8
  | I16
  | I32
  | I64
  | U8
  | U16
  | U32
  | U64
  | F32
  | F64
deriving DecidableEq

/-- One input device as the host enumeration presents it:
`device.name()` may fail (`none`), and `device.default_input_config()`
may fail (`none`) or report a native sample format. -/
structure HostDevice where
  name : Option String
  defaultConfig : Option SampleFormat
deriving DecidableEq

/-- Decimal digits of `n`, most significant first, accumulator style with
structural fuel (`fuel > n` suffices): the decimal rendering performed by
`format!("input_{}", index)`. -/
def natDigitsCore : Nat → Nat → List Char → List Char
  | 0, _, acc => acc
  | fuel + 1, n, acc =>
    if n < 10 then Nat.digitChar n :: acc
    else natDigitsCore fuel (n / 10) (Nat.digitChar (n % 10) :: acc)

/-- Decimal rendering of a `usize`. -/
def natDigits (n : Nat) : List Char := natDigitsCore (n + 1) n []

/-- `format!("input_{}", index)`. -/
def mkDeviceId (index : Nat) : String := "input_" ++ String.mk (natDigits index)

/-- Rust `str::strip_prefix`: `some` of the remainder when `p` is a prefix
of `s`, `none` otherwise. -/
def stripPrefixStr (p s : String) : Option String :=
  if p.data.isPrefixOf s.data then some (String.mk (s.data.drop p.data.length))
  else none

/-- `str::parse::<usize>().ok()` restricted to the plain decimal grammar:
one or more ASCII digits (Rust would additionally accept one leading `+`,
and reject values above `usize::MAX`; neither case arises for ids the
program itself issues). -/
def parseNat (s : String) : Option Nat :=
  if !s.data.isEmpty && s.data.all Char.isDigit then
    some (s.data.foldl (fun n c => 10 * n + (c.toNat - 48)) 0)
  else none

/-- The id parsing in `start_monitoring`:
`device_id.strip_prefix("input_").and_then(|s| s.parse().ok())`. -/
def parseDeviceId (device_id : String) : Option Nat :=
  (stripPrefixStr "input_" device_id).bind parseNat

/-- The serialized `AudioDevice { name, id }` record. -/
structure AudioDevice where
  name : String
  id : String
deriving DecidableEq

/-- The enumeration loop of `get_audio_devices`:
`for (index, device) in input_devices.enumerate() { if let Ok(name) = device.name() { push } }`.
A device whose name cannot be read is skipped but still consumes its index. -/
def enumNamedFrom (index : Nat) : List HostDevice → List AudioDevice
  | [] => []
  | device :: rest =>
    match device.name with
    | some name => { name := name, id := mkDeviceId index } :: enumNamedFrom (index + 1) rest
    | none => enumNamedFrom (index + 1) rest

/-- `get_audio_devices` applied to the host's current input-device
enumeration (host enumeration itself assumed available; its failure aborts
the call before this loop). -/
def get_audio_devices (host : List HostDevice) : List AudioDevice :=
  enumNamedFrom 0 host

/-! ### Capture session state and commands

`AudioState` holds the two `Arc<Mutex<f32>>` volume cells; in addition we
track, per slot, the list of input streams `start_monitoring` has built,
played and then `std::mem::forget`-ten (observable liveness of the slot:
an empty list is the spec's `Idle` state). -/

structure SystemState where
  primary_volume : ℝ
  secondary_volume : ℝ
  primary_streams : List SampleFormat
  secondary_streams : List SampleFormat

/-- `AudioState::default()`: both volume cells `0.0`, no stream ever built. -/
def initState : SystemState :=
  { primary_volume := 0, secondary_volume := 0
    primary_streams := [], secondary_streams := [] }

/-- `let volume = if is_primary { &primary_volume } else { &secondary_volume }`
— read side. -/
def slotVolume (is_primary : Bool) (s : SystemState) : ℝ :=
  if is_primary then s.primary_volume else s.secondary_volume

/-- Write the selected slot's volume cell, leaving everything else alone. -/
def writeSlotVolume (is_primary : Bool) (v : ℝ) (s : SystemState) : SystemState :=
  if is_primary then { s with primary_volume := v }
  else { s with secondary_volume := v }

/-- `stream.play()` + `std::mem::forget(stream)`: the new stream joins the
slot's set of live streams (the old ones are leaked, not stopped). -/
def installStream (is_primary : Bool) (fmt : SampleFormat) (s : SystemState) : SystemState :=
  if is_primary then { s with primary_streams := s.primary_streams ++ [fmt] }
  else { s with secondary_streams := s.secondary_streams ++ [fmt] }

/-- The `match config.sample_format()` block of `start_monitoring` once a
device has been resolved: query the default config, build/play/forget a
stream for `F32`/`I16`/`U16`, reject any other native format.  Stream
construction and playback success is host behaviour and is modelled as
succeeding; every failure path of the Rust code returns before
`std::mem::forget`, so a failed call leaves no live stream behind. -/
def openStreamForDevice (device : HostDevice) (is_primary : Bool) (s : SystemState) :
    Except String Unit × SystemState :=
  match device.defaultConfig with
  | none => (.error "Failed to get default input config", s)
  | some fmt =>
    match fmt with
    | .F32 => (.ok (), installStream is_primary .F32 s)
    | .I16 => (.ok (), installStream is_primary .I16 s)
    | .U16 => (.ok (), installStream is_primary .U16 s)
    | _ => (.error "Unsupported sample format", s)

/-- `start_monitoring`: parse the id, `input_devices().nth(index)`, then
open a stream on the resolved device.  The volume cells are never written
by this command (only the installed callbacks write them). -/
def start_monitoring (device_id : String) (is_primary : Bool) (host : List HostDevice)
    (s : SystemState) : Except String Unit × SystemState :=
  match parseDeviceId device_id with
  | none => (.error "Invalid device ID", s)
  | some device_index =>
    match host.get? device_index with
    | none => (.error "Device not found", s)
    | some device => openStreamForDevice device is_primary s

/-- `stop_monitoring`: `*volume.lock().unwrap() = 0.0; Ok(())`. -/
def stop_monitoring (is_primary : Bool) (s : SystemState) :
    Except String Unit × SystemState :=
  (.ok (), writeSlotVolume is_primary 0 s)

/-- `get_volume`: read the slot's cell, return
`Ok((vol * 100.0).min(100.0))`; the state is untouched. -/
def get_volume (is_primary : Bool) (s : SystemState) : Except String ℝ × SystemState :=
  (.ok (min (slotVolume is_primary s * 100) 100), s)

/-- One data block arriving at a capture callback, in the stream's native
format. -/
inductive CaptureBlock
  | f32 (data : List ℚ)
  | i16 (data : List ℤ)
  | u16 (data : List ℕ)

/-- The value a capture callback writes into its slot's cell: the F32
callback feeds the block straight to `calculate_rms`; the I16 callback
first maps `s as f32 / i16::MAX as f32`; the U16 callback first maps
`(s as f32 / u16::MAX as f32) * 2.0 - 1.0`. -/
noncomputable def callbackVolume : CaptureBlock → ℝ
  | .f32 data => calculate_rms data
  | .i16 data => calculate_rms (data.map normalize_i16)
  | .u16 data => calculate_rms (data.map normalize_u16)

/-- The transitions of the system: the four commands (run against an
arbitrary host enumeration snapshot) and an asynchronous capture-callback
invocation writing an RMS value into its slot. -/
inductive Step : SystemState → SystemState → Prop
  | start (device_id : String) (is_primary : Bool) (host : List HostDevice)
      (s : SystemState) : Step s (start_monitoring device_id is_primary host s).2
  | stop (is_primary : Bool) (s : SystemState) :
      Step s (stop_monitoring is_primary s).2
  | query (is_primary : Bool) (s : SystemState) :
      Step s (get_volume is_primary s).2
  | callback (is_primary : Bool) (block : CaptureBlock) (s : SystemState) :
      Step s (writeSlotVolume is_primary (callbackVolume block) s)

/-- States reachable from process start. -/
def Reachable (s : SystemState) : Prop :=
  Relation.ReflTransGen Step initState s

/-! ### Decimal formatting / parsing round trip -/

theorem digitChar_isDigit (d : Nat) (h : d < 10) : (Nat.digitChar d).isDigit = true := by
  interval_cases d <;> decide

theorem digitChar_toNat (d : Nat) (h : d < 10) : (Nat.digitChar d).toNat = 48 + d := by
  interval_cases d <;> decide

theorem natDigitsCore_acc : ∀ (n fuel : Nat) (acc : List Char), n < fuel →
    natDigitsCore fuel n acc = natDigitsCore (n + 1) n [] ++ acc := by
  intro n
  induction n using Nat.strong_induction_on with
  | _ n ih =>
    intro fuel acc hfuel
    obtain ⟨f, rfl⟩ : ∃ f, fuel = f + 1 := ⟨fuel - 1, by omega⟩
    by_cases h10 : n < 10
    · simp [natDigitsCore, h10]
    · have hdiv : n / 10 < n := Nat.div_lt_self (by omega) (by omega)
      rw [show natDigitsCore (f + 1) n acc
            = natDigitsCore f (n / 10) (Nat.digitChar (n % 10) :: acc) from by
          simp [natDigitsCore, h10]]
      rw [show natDigitsCore (n + 1) n []
            = natDigitsCore n (n / 10) [Nat.digitChar (n % 10)] from by
          simp [natDigitsCore, h10]]
      rw [ih (n / 10) hdiv f _ (by omega), ih (n / 10) hdiv n _ (by omega)]
      simp

theorem natDigits_of_lt (n : Nat) (h : n < 10) : natDigits n = [Nat.digitChar n] := by
  simp [natDigits, natDigitsCore, h]

theorem natDigits_of_ge (n : Nat) (h : 10 ≤ n) :
    natDigits n = natDigits (n / 10) ++ [Nat.digitChar (n % 10)] := by
  have hdiv : n / 10 < n := Nat.div_lt_self (by omega) (by omega)
  rw [natDigits, show natDigitsCore (n + 1) n []
        = natDigitsCore n (n / 10) [Nat.digitChar (n % 10)] from by
      simp [natDigitsCore, show ¬ n < 10 from by omega]]
  rw [natDigitsCore_acc (n / 10) n _ (by omega)]
  rfl

theorem natDigits_ne_nil (n : Nat) : natDigits n ≠ [] := by
  by_cases h : n < 10
  · simp [natDigits_of_lt n h]
  · simp [natDigits_of_ge n (by omega)]

theorem natDigits_all_isDigit : ∀ n : Nat, (natDigits n).all Char.isDigit = true := by
  intro n
  induction n using Nat.strong_induction_on with
  | _ n ih =>
    by_cases h : n < 10
    · simp [natDigits_of_lt n h, digitChar_isDigit n h]
    · have hdiv : n / 10 < n := Nat.div_lt_self (by omega) (by omega)
      simp [natDigits_of_ge n (by omega), List.all_append, ih (n / 10) hdiv,
        digitChar_isDigit (n % 10) (Nat.mod_lt n (by omega))]

theorem foldl_natDigits : ∀ n : Nat,
    (natDigits n).foldl (fun m c => 10 * m + (c.toNat - 48)) 0 = n := by
  intro n
  induction n using Nat.strong_induction_on with
  | _ n ih =>
    by_cases h : n < 10
    · simp [natDigits_of_lt n h, digitChar_toNat n h]
    · have hdiv : n / 10 < n := Nat.div_lt_self (by omega) (by omega)
      rw [natDigits_of_ge n (by omega), List.foldl_append, ih (n / 10) hdiv]
      simp [digitChar_toNat (n % 10) (Nat.mod_lt n (by omega))]
      omega

theorem parseNat_natDigits (n : Nat) : parseNat (String.mk (natDigits n)) = some n := by
  unfold parseNat
  rw [show (String.mk (natDigits n)).data = natDigits n from rfl]
  rw [if_pos]
  · exact congrArg some (foldl_natDigits n)
  · simp [natDigits_all_isDigit n, List.isEmpty_iff, natDigits_ne_nil n]

theorem isPrefixOf_append_self : ∀ (p t : List Char), p.isPrefixOf (p ++ t) = true
  | [], _ => by simp [List.isPrefixOf]
  | c :: p, t => by simp [List.isPrefixOf, isPrefixOf_append_self p t]

theorem stripPrefixStr_append (p q : String) : stripPrefixStr p (p ++ q) = some q := by
  unfold stripPrefixStr
  rw [show (p ++ q).data = p.data ++ q.data from rfl]
  rw [if_pos (isPrefixOf_append_self p.data q.data)]
  rw [List.drop_left]

theorem parseDeviceId_mkDeviceId (i : Nat) : parseDeviceId (mkDeviceId i) = some i := by
  unfold parseDeviceId mkDeviceId
  rw [stripPrefixStr_append]
  exact parseNat_natDigits i

/-! ### Device enumeration / resolution -/

theorem mem_enumNamedFrom : ∀ (host : List HostDevice) (index : Nat) (ad : AudioDevice),
    ad ∈ enumNamedFrom index host →
    ∃ k d, host.get? k = some d ∧ d.name = some ad.name ∧ ad.id = mkDeviceId (index + k) := by
  intro host
  induction host with
  | nil => intro index ad h; simp [enumNamedFrom] at h
  | cons device rest ih =>
    intro index ad h
    cases hn : device.name with
    | some name =>
      rw [enumNamedFrom, hn] at h
      rcases List.mem_cons.mp h with h1 | h2
      · exact ⟨0, device, rfl, by rw [hn, h1], by simp [h1]⟩
      · obtain ⟨k, d, hk, hname, hid⟩ := ih (index + 1) ad h2
        exact ⟨k + 1, d, hk, hname, by rw [hid]; ring_nf⟩
    | none =>
      rw [enumNamedFrom, hn] at h
      obtain ⟨k, d, hk, hname, hid⟩ := ih (index + 1) ad h
      exact ⟨k + 1, d, hk, hname, by rw [hid]; ring_nf⟩

/-- Claim C9: within one enumeration snapshot, every id `"input_<index>"`
issued by `get_audio_devices` parses back to the index of the very device
it was derived from — also when earlier devices were skipped because their
name could not be read — and `start_monitoring` on that id proceeds with
exactly that device. -/
theorem device_id_round_trip (host : List HostDevice) (ad : AudioDevice)
    (h : ad ∈ get_audio_devices host) :
    ∃ k d, host.get? k = some d ∧ d.name = some ad.name ∧ ad.id = mkDeviceId k ∧
      parseDeviceId ad.id = some k ∧
      ∀ (is_primary : Bool) (s : SystemState),
        start_monitoring ad.id is_primary host s = openStreamForDevice d is_primary s := by
  obtain ⟨k, d, hk, hname, hid⟩ := mem_enumNamedFrom host 0 ad h
  rw [Nat.zero_add] at hid
  have hparse : parseDeviceId ad.id = some k := by
    rw [hid]; exact parseDeviceId_mkDeviceId k
  refine ⟨k, d, hk, hname, hid, hparse, ?_⟩
  intro is_primary s
  unfold start_monitoring
  have hk' : host[k]? = some d := by simpa [← List.get?_eq_getElem?] using hk
  simp [hparse, hk']

/-- A concrete enumeration snapshot for the round-trip witness: the middle
device has an unreadable name and is skipped, so the second listed device
carries id `"input_2"`. -/
def demoHost : List HostDevice :=
  [⟨some "Mic A", some .F32⟩, ⟨none, none⟩, ⟨some "Mic B", some .I16⟩]

theorem device_id_round_trip_witness :
    ((⟨"Mic B", "input_2"⟩ : AudioDevice) ∈ get_audio_devices demoHost) ∧
    ∃ k d, demoHost.get? k = some d ∧
      d.name = some (AudioDevice.name ⟨"Mic B", "input_2"⟩) ∧
      (AudioDevice.id ⟨"Mic B", "input_2"⟩) = mkDeviceId k ∧
      parseDeviceId (AudioDevice.id ⟨"Mic B", "input_2"⟩) = some k ∧
      ∀ (is_primary : Bool) (s : SystemState),
        start_monitoring (AudioDevice.id ⟨"Mic B", "input_2"⟩) is_primary demoHost s
          = openStreamForDevice d is_primary s := by
  have hmem : (⟨"Mic B", "input_2"⟩ : AudioDevice) ∈ get_audio_devices demoHost := by
    rw [show get_audio_devices demoHost
          = [⟨"Mic A", "input_0"⟩, ⟨"Mic B", "input_2"⟩] from rfl]
    exact List.mem_cons_of_mem _ (List.mem_cons_self _ _)
  exact ⟨hmem, device_id_round_trip demoHost _ hmem⟩

/-! ### Loudness meter lemmas -/

theorem calculate_rms_replicate (n : ℕ) (a : ℚ) (hn : n ≠ 0) :
    calculate_rms (List.replicate n a) = |(a : ℝ)| := by
  unfold calculate_rms
  rw [if_neg (by simp [hn])]
  have hsum : sum_of_squares (List.replicate n a) = (n : ℚ) * (a * a) := by
    unfold sum_of_squares
    rw [List.map_replicate, List.sum_replicate, nsmul_eq_mul]
  rw [hsum, List.length_replicate]
  push_cast
  rw [mul_div_cancel_left₀ _ (show ((n : ℝ)) ≠ 0 from Nat.cast_ne_zero.mpr hn)]
  exact Real.sqrt_mul_self_eq_abs _

theorem calculate_rms_zeros (n : ℕ) : calculate_rms (List.replicate n 0) = 0 := by
  cases n with
  | zero => rfl
  | succ m =>
    rw [calculate_rms_replicate (m + 1) 0 (Nat.succ_ne_zero m)]
    simp

theorem calculate_rms_nonneg (samples : List ℚ) : 0 ≤ calculate_rms samples := by
  unfold calculate_rms
  split
  · exact le_refl 0
  · exact Real.sqrt_nonneg _

theorem callbackVolume_nonneg (block : CaptureBlock) : 0 ≤ callbackVolume block := by
  cases block <;> exact calculate_rms_nonneg _

/-- `start_monitoring` never writes either volume cell (only the installed
stream callbacks do). -/
theorem start_monitoring_volumes (device_id : String) (is_primary : Bool)
    (host : List HostDevice) (s : SystemState) :
    (start_monitoring device_id is_primary host s).2.primary_volume = s.primary_volume ∧
    (start_monitoring device_id is_primary host s).2.secondary_volume = s.secondary_volume := by
  unfold start_monitoring openStreamForDevice installStream
  cases hp : parseDeviceId device_id with
  | none => exact ⟨rfl, rfl⟩
  | some idx =>
    cases hg : host[idx]? with
    | none => simp [hg]
    | some d =>
      cases hc : d.defaultConfig with
      | none => simp [hg, hc]
      | some fmt => cases fmt <;> cases is_primary <;> simp [hg, hc]

/-- Both volume cells hold nonnegative values. -/
def VolumesNonneg (s : SystemState) : Prop :=
  0 ≤ s.primary_volume ∧ 0 ≤ s.secondary_volume

theorem writeSlotVolume_volumesNonneg (is_primary : Bool) (v : ℝ) (s : SystemState)
    (hv : 0 ≤ v) (hs : VolumesNonneg s) : VolumesNonneg (writeSlotVolume is_primary v s) := by
  cases is_primary <;> simp [writeSlotVolume, VolumesNonneg] <;>
    exact ⟨by first | exact hv | exact hs.1, by first | exact hv | exact hs.2⟩

theorem step_volumesNonneg {a b : SystemState} (hstep : Step a b)
    (ha : VolumesNonneg a) : VolumesNonneg b := by
  cases hstep with
  | start device_id is_primary host =>
    have hv := start_monitoring_volumes device_id is_primary host a
    exact ⟨hv.1 ▸ ha.1, hv.2 ▸ ha.2⟩
  | stop is_primary =>
    exact writeSlotVolume_volumesNonneg is_primary 0 a (le_refl 0) ha
  | query is_primary => exact ha
  | callback is_primary block =>
    exact writeSlotVolume_volumesNonneg is_primary _ a (callbackVolume_nonneg block) ha

theorem reachable_volumesNonneg (s : SystemState) (h : Reachable s) : VolumesNonneg s := by
  induction h with
  | refl => exact ⟨le_refl 0, le_refl 0⟩
  | tail _ hstep ih => exact step_volumesNonneg hstep ih

/-- Claim C1: `get_volume` always succeeds with the stored loudness mapped
through `min(v * 100, 100)`, the result lies in `[0, 100]` in every
reachable state (the stored value is an RMS or `0.0`, hence nonnegative),
a stored value `≥ 1.0` maps to exactly `100.0`, and `0.5` maps to `50.0`. -/
theorem get_volume_percentage (is_primary : Bool) (s : SystemState) (h : Reachable s) :
    (get_volume is_primary s).1 = .ok (min (slotVolume is_primary s * 100) 100) ∧
    (get_volume is_primary s).2 = s ∧
    0 ≤ min (slotVolume is_primary s * 100) 100 ∧
    min (slotVolume is_primary s * 100) 100 ≤ 100 ∧
    (1 ≤ slotVolume is_primary s → min (slotVolume is_primary s * 100) 100 = 100) ∧
    (slotVolume is_primary s = 1 / 2 → min (slotVolume is_primary s * 100) 100 = 50) := by
  have hnn : 0 ≤ slotVolume is_primary s := by
    have := reachable_volumesNonneg s h
    cases is_primary <;> simp [slotVolume] <;> first | exact this.1 | exact this.2
  refine ⟨rfl, rfl, le_min (by positivity) (by norm_num), min_le_right _ _, ?_, ?_⟩
  · intro h1
    exact min_eq_right (by linarith)
  · intro h2
    rw [h2]; norm_num

/-- A state reached by one F32 capture-callback invocation on the block
`[0.5]`, whose RMS is `0.5`. -/
noncomputable def halfState : SystemState :=
  writeSlotVolume true (callbackVolume (.f32 [1 / 2])) initState

theorem halfState_reachable : Reachable halfState :=
  Relation.ReflTransGen.single (Step.callback true (.f32 [1 / 2]) initState)

theorem calculate_rms_half : calculate_rms [1 / 2] = 1 / 2 := by
  rw [show ([1 / 2] : List ℚ) = List.replicate 1 (1 / 2) from rfl]
  rw [calculate_rms_replicate 1 (1 / 2) one_ne_zero]
  norm_num

theorem slotVolume_halfState : slotVolume true halfState = 1 / 2 :=
  calculate_rms_half

theorem get_volume_percentage_witness :
    (get_volume true halfState).1 = .ok (min (slotVolume true halfState * 100) 100) ∧
    min (slotVolume true halfState * 100) 100 = 50 ∧
    0 ≤ min (slotVolume true halfState * 100) 100 ∧
    min (slotVolume true halfState * 100) 100 ≤ 100 := by
  have h := get_volume_percentage true halfState halfState_reachable
  exact ⟨h.1, h.2.2.2.2.2 slotVolume_halfState, h.2.2.1, h.2.2.2.1⟩

/-- Claim C2: `calculate_rms` returns `sqrt(mean(sample^2))` on a non-empty
block and `0.0` (not an error) on an empty block; an all-zero block of any
length yields `0.0` and a constant block of value `a` yields `|a|`. -/
theorem calculate_rms_spec :
    calculate_rms [] = 0 ∧
    (∀ samples : List ℚ, samples ≠ [] →
      calculate_rms samples
        = Real.sqrt ((sum_of_squares samples : ℝ) / (samples.length : ℝ))) ∧
    (∀ n : ℕ, calculate_rms (List.replicate n 0) = 0) ∧
    (∀ (n : ℕ) (a : ℚ), n ≠ 0 → calculate_rms (List.replicate n a) = |(a : ℝ)|) := by
  refine ⟨rfl, ?_, calculate_rms_zeros, calculate_rms_replicate⟩
  intro samples h
  unfold calculate_rms
  rw [if_neg (by simp [h])]

theorem calculate_rms_spec_witness :
    calculate_rms (List.replicate 2 (-3 : ℚ)) = 3 ∧
    calculate_rms [1, 1, 1, 1]
      = Real.sqrt ((sum_of_squares [1, 1, 1, 1] : ℝ) / (4 : ℝ)) := by
  constructor
  · rw [calculate_rms_spec.2.2.2 2 (-3) (by decide)]
    norm_num
  · have h := calculate_rms_spec.2.1 [1, 1, 1, 1] (by decide)
    simpa using h

/-! ### Claim C3: the signed 16-bit normalizer's range

The code divides by `i16::MAX = 32767`, so the format minimum `-32768`
maps to `-32768/32767 < -1`: the claimed range `[-1.0, 1.0]` fails at that
single input. -/

/-- Counterexample to claim C3 as stated: `-32768` is a valid signed
16-bit sample, yet its normalized value lies strictly below `-1.0`. -/
theorem normalize_i16_min_below_neg_one :
    (-(2 ^ 15) : ℤ) ≤ -32768 ∧ (-32768 : ℤ) ≤ 2 ^ 15 - 1 ∧
    normalize_i16 (-32768) < -1 := by
  refine ⟨by norm_num, by norm_num, ?_⟩
  norm_num [normalize_i16, i16_MAX]

/-- Claim C3 (amended): for every valid signed 16-bit input the
normalizer's output lies in `[-32768/32767, 1.0]` (so within `[-1, 1]`
except at the format minimum, which lands `1/32767` below `-1.0`);
input `0` maps to `0.0`, and the format minimum and maximum map to
`-32768/32767 ≈ -1.0` and exactly `1.0`. -/
theorem normalize_i16_range (sample : ℤ)
    (h1 : -32768 ≤ sample) (h2 : sample ≤ 32767) :
    -(32768 / 32767 : ℚ) ≤ normalize_i16 sample ∧ normalize_i16 sample ≤ 1 ∧
    normalize_i16 0 = 0 ∧
    normalize_i16 (-32768) = -(32768 / 32767 : ℚ) ∧
    |normalize_i16 (-32768) - (-1)| = 1 / 32767 ∧
    normalize_i16 32767 = 1 := by
  have hc1 : (-32768 : ℚ) ≤ (sample : ℚ) := by exact_mod_cast h1
  have hc2 : (sample : ℚ) ≤ 32767 := by exact_mod_cast h2
  refine ⟨?_, ?_, ?_, ?_, ?_, ?_⟩
  · rw [normalize_i16, i16_MAX]
    rw [show -(32768 / 32767 : ℚ) = (-32768) / 32767 from by ring]
    push_cast
    gcongr
  · rw [normalize_i16, i16_MAX]
    push_cast
    rw [div_le_one (by norm_num)]
    exact hc2
  · norm_num [normalize_i16]
  · norm_num [normalize_i16, i16_MAX]
  · norm_num [normalize_i16, i16_MAX]
  · norm_num [normalize_i16, i16_MAX]

theorem normalize_i16_range_witness :
    ((-32768 : ℤ) ≤ -100 ∧ (-100 : ℤ) ≤ 32767) ∧
    -(32768 / 32767 : ℚ) ≤ normalize_i16 (-100) ∧ normalize_i16 (-100) ≤ 1 := by
  have h := normalize_i16_range (-100) (by norm_num) (by norm_num)
  exact ⟨⟨by norm_num, by norm_num⟩, h.1, h.2.1⟩

/-- Claim C4: each sample format is normalized by exactly the per-format
formula — signed 16-bit `/32767`, unsigned 16-bit `/65535` then `×2−1`,
24-bit-in-32 `/8388608`, signed 32-bit `/2147483647`, float passthrough —
both in the WAV decode dispatch and in the capture callbacks. -/
theorem normalization_formulas :
    (∀ sample : ℤ, normalize_i16 sample = (sample : ℚ) / 32767) ∧
    (∀ sample : ℕ, normalize_u16 sample = (sample : ℚ) / 65535 * 2 - 1) ∧
    (∀ sample : ℤ, normalize_i24 sample = (sample : ℚ) / 8388608) ∧
    (∀ sample : ℤ, normalize_i32 sample = (sample : ℚ) / 2147483647) ∧
    (∀ (channels bits rate : ℕ) (data : List ℚ),
      decodeSamples ⟨channels, .Float, bits, rate⟩ (.float data) = .ok data) ∧
    (∀ (channels rate : ℕ) (data : List ℤ),
      decodeSamples ⟨channels, .Int, 16, rate⟩ (.int data) = .ok (data.map normalize_i16) ∧
      decodeSamples ⟨channels, .Int, 24, rate⟩ (.int data) = .ok (data.map normalize_i24) ∧
      decodeSamples ⟨channels, .Int, 32, rate⟩ (.int data) = .ok (data.map normalize_i32)) ∧
    (∀ data : List ℚ, callbackVolume (.f32 data) = calculate_rms data) ∧
    (∀ data : List ℤ,
      callbackVolume (.i16 data)
        = calculate_rms (data.map fun s : ℤ => (s : ℚ) / 32767)) ∧
    (∀ data : List ℕ,
      callbackVolume (.u16 data)
        = calculate_rms (data.map fun s : ℕ => (s : ℚ) / 65535 * 2 - 1)) := by
  refine ⟨?_, ?_, ?_, ?_, ?_, ?_, ?_, ?_, ?_⟩
  · intro sample; norm_num [normalize_i16, i16_MAX]
  · intro sample; norm_num [normalize_u16, u16_MAX]
  · intro sample; rfl
  · intro sample; norm_num [normalize_i32, i32_MAX]
  · intro channels bits rate data; rfl
  · intro channels rate data; exact ⟨rfl, rfl, rfl⟩
  · intro data; rfl
  · intro data
    show calculate_rms (data.map normalize_i16) = _
    rw [show (fun s : ℤ => (s : ℚ) / 32767) = normalize_i16 from by
      funext s; norm_num [normalize_i16, i16_MAX]]
  · intro data
    show calculate_rms (data.map normalize_u16) = _
    rw [show (fun s : ℕ => (s : ℚ) / 65535 * 2 - 1) = normalize_u16 from by
      funext s; norm_num [normalize_u16, u16_MAX]]

/-! ### Claim C5: channel-count handling in the decoder

The code only tests `spec.channels == 2`; every other channel count —
including 3 and above — takes the passthrough branch.  No
`UnsupportedChannelLayout` error exists in the code. -/

/-- Counterexample to claim C5 as stated: a 3-channel 16-bit file decodes
successfully to passthrough samples instead of failing with
`UnsupportedChannelLayout`. -/
theorem read_wav_file_three_channels_ok :
    read_wav_file ⟨3, .Int, 16, 100⟩ (.int [16384])
      = .ok ⟨[16384 / 32767], 100, 10⟩ := by
  norm_num [read_wav_file, decodeSamples, normalize_i16, i16_MAX]

/-- Claim C5 (amended): channel count 2 is downmixed and every other
channel count — 1, but also 3 or more — is passed through unchanged; the
decode never fails on the channel count. -/
theorem read_wav_file_channel_handling (spec : WavSpec) (raw : RawSamples) :
    (spec.channels = 2 →
      read_wav_file spec raw = (decodeSamples spec raw).map fun samples =>
        ⟨downmixStereo samples, spec.sample_rate,
          ((downmixStereo samples).length : ℚ) / (spec.sample_rate : ℚ) * 1000⟩) ∧
    (spec.channels ≠ 2 →
      read_wav_file spec raw = (decodeSamples spec raw).map fun samples =>
        ⟨samples, spec.sample_rate,
          (samples.length : ℚ) / (spec.sample_rate : ℚ) * 1000⟩) := by
  constructor
  · intro h2
    unfold read_wav_file
    cases decodeSamples spec raw with
    | error e => rfl
    | ok samples => simp [h2, Except.map]
  · intro h2
    unfold read_wav_file
    cases decodeSamples spec raw with
    | error e => rfl
    | ok samples => simp [h2, Except.map]

theorem read_wav_file_channel_handling_witness :
    read_wav_file ⟨2, .Float, 32, 10⟩ (.float [1, 0])
      = .ok ⟨[1 / 2], 10, 100⟩ ∧
    read_wav_file ⟨1, .Float, 32, 10⟩ (.float [1, 0])
      = .ok ⟨[1, 0], 10, 200⟩ := by
  constructor
  · rw [(read_wav_file_channel_handling ⟨2, .Float, 32, 10⟩ (.float [1, 0])).1 rfl]
    norm_num [decodeSamples, downmixStereo, Except.map]
  · rw [(read_wav_file_channel_handling ⟨1, .Float, 32, 10⟩ (.float [1, 0])).2 (by decide)]
    norm_num [decodeSamples, Except.map]

/-! ### Claim C6: the stereo downmix -/

theorem downmixStereo_length : ∀ xs : List ℚ,
    (downmixStereo xs).length = (xs.length + 1) / 2
  | [] => by simp [downmixStereo]
  | [_] => by simp [downmixStereo]
  | _ :: _ :: rest => by
    simp only [downmixStereo, List.length_cons, downmixStereo_length rest]
    omega

theorem downmixStereo_get : ∀ (xs : List ℚ) (i : Nat), i < (xs.length + 1) / 2 →
    (downmixStereo xs).get? i = some ((xs.getD (2 * i) 0 + xs.getD (2 * i + 1) 0) / 2)
  | [], i, h => by simp at h
  | [a], i, h => by
    have hi : i = 0 := by simpa using h
    subst hi
    simp [downmixStereo, List.getD]
  | a :: b :: rest, i, h => by
    cases i with
    | zero => simp [downmixStereo, List.getD]
    | succ j =>
      have hj : j < (rest.length + 1) / 2 := by
        simp only [List.length_cons] at h
        omega
      simp only [downmixStereo, List.get?_cons_succ, downmixStereo_get rest j hj]
      simp only [show 2 * (j + 1) = 2 * j + 1 + 1 from by ring,
        show 2 * j + 1 + 1 + 1 = (2 * j + 1) + 1 + 1 from by ring,
        List.getD_cons_succ]

/-- Claim C6: the downmix produces one sample per frame, the mean of the
frame's two channels, treating the missing trailing sample of an
odd-length buffer as `0.0`; `[1.0, 0.0, 0.5, 0.5]` yields `[0.5, 0.5]`
and `[1.0]` yields `[0.5]`. -/
theorem downmixStereo_spec :
    (∀ xs : List ℚ, (downmixStereo xs).length = (xs.length + 1) / 2) ∧
    (∀ (xs : List ℚ) (i : Nat), i < (xs.length + 1) / 2 →
      (downmixStereo xs).get? i
        = some ((xs.getD (2 * i) 0 + xs.getD (2 * i + 1) 0) / 2)) ∧
    downmixStereo [1, 0, 1 / 2, 1 / 2] = [1 / 2, 1 / 2] ∧
    downmixStereo [1] = [1 / 2] :=
  ⟨downmixStereo_length, downmixStereo_get,
    by norm_num [downmixStereo], by norm_num [downmixStereo]⟩

theorem downmixStereo_spec_witness :
    (downmixStereo [1]).get? 0
      = some ((([1] : List ℚ).getD 0 0 + ([1] : List ℚ).getD 1 0) / 2) ∧
    (0 : ℕ) < (([1] : List ℚ).length + 1) / 2 :=
  ⟨downmixStereo_spec.2.1 [1] 0 (by norm_num), by norm_num⟩

/-- Claim C7: `stop_monitoring` always succeeds, writes exactly `0.0` into
the selected slot's loudness cell, is idempotent (stopping an
already-stopped slot is a no-op success — stopping the never-started
initial state even leaves the state bitwise unchanged), and `get_volume`
afterwards reads `0.0`. -/
theorem stop_monitoring_spec (is_primary : Bool) (s : SystemState) :
    stop_monitoring is_primary s = (.ok (), writeSlotVolume is_primary 0 s) ∧
    slotVolume is_primary (stop_monitoring is_primary s).2 = 0 ∧
    (stop_monitoring is_primary (stop_monitoring is_primary s).2).2
      = (stop_monitoring is_primary s).2 ∧
    (stop_monitoring is_primary initState).2 = initState ∧
    (get_volume is_primary (stop_monitoring is_primary s).2).1 = .ok 0 := by
  refine ⟨rfl, ?_, ?_, ?_, ?_⟩
  · cases is_primary <;> simp [stop_monitoring, writeSlotVolume, slotVolume]
  · cases is_primary <;> simp [stop_monitoring, writeSlotVolume]
  · cases is_primary <;> simp [stop_monitoring, writeSlotVolume, initState]
  · cases is_primary <;>
      simp [stop_monitoring, writeSlotVolume, slotVolume, get_volume]

/-- Claim C8: `start_monitoring` with a malformed device id (not of the
shape `input_<digits>`) or an out-of-range index fails with the
corresponding resolution error and returns the state unchanged: both
loudness cells keep their values and no stream is installed (the slot
stays Idle). -/
theorem start_monitoring_resolution_failure (device_id : String) (is_primary : Bool)
    (host : List HostDevice) (s : SystemState) :
    (parseDeviceId device_id = none →
      start_monitoring device_id is_primary host s = (.error "Invalid device ID", s)) ∧
    (∀ idx, parseDeviceId device_id = some idx → host.get? idx = none →
      start_monitoring device_id is_primary host s = (.error "Device not found", s)) := by
  constructor
  · intro hp
    unfold start_monitoring
    rw [hp]
  · intro idx hp hg
    unfold start_monitoring
    have hg' : host[idx]? = none := by simpa [← List.get?_eq_getElem?] using hg
    simp [hp, hg']

theorem start_monitoring_resolution_failure_witness :
    start_monitoring "garbage" true [] initState
      = (.error "Invalid device ID", initState) ∧
    start_monitoring "input_5" false [] initState
      = (.error "Device not found", initState) :=
  ⟨(start_monitoring_resolution_failure "garbage" true [] initState).1 rfl,
    (start_monitoring_resolution_failure "input_5" false [] initState).2 5 rfl rfl⟩

/-- Claim C10: `stop_monitoring` and `get_volume` touch only the loudness
cell selected by their slot argument — stop leaves the other slot's cell
and both stream lists unchanged, `get_volume` leaves the whole state
unchanged, and its result depends only on the selected cell. -/
theorem slot_isolation (is_primary : Bool) (s : SystemState) :
    slotVolume (!is_primary) (stop_monitoring is_primary s).2
      = slotVolume (!is_primary) s ∧
    (stop_monitoring is_primary s).2.primary_streams = s.primary_streams ∧
    (stop_monitoring is_primary s).2.secondary_streams = s.secondary_streams ∧
    (get_volume is_primary s).2 = s ∧
    (∀ s' : SystemState, slotVolume is_primary s' = slotVolume is_primary s →
      (get_volume is_primary s').1 = (get_volume is_primary s).1) := by
  refine ⟨?_, ?_, ?_, rfl, ?_⟩
  · cases is_primary <;> simp [stop_monitoring, writeSlotVolume, slotVolume]
  · cases is_primary <;> simp [stop_monitoring, writeSlotVolume]
  · cases is_primary <;> simp [stop_monitoring, writeSlotVolume]
  · intro s' hs'
    simp [get_volume, hs']

theorem slot_isolation_witness :
    (get_volume true ⟨0, 5, [], []⟩).1 = (get_volume true initState).1 ∧
    slotVolume (!true) (stop_monitoring true initState).2
      = slotVolume (!true) initState :=
  ⟨(slot_isolation true initState).2.2.2.2 ⟨0, 5, [], []⟩ rfl,
    (slot_isolation true initState).1⟩

end Toolbox
